import Mathlib

/-!
Verification of the open-deepthink pipeline core against its specification.

This file shallowly embeds the Python source of the repository:

* `src/agents/critic.py` — evaluation validation, default evaluations, ranking
  (`CriticAgent._validate_evaluation`, `_create_default_evaluation`,
  `_validate_and_enhance_critique`, `_create_ranking`).
* `src/agents/base.py` — the JSON response normalizer
  (`BaseAgent._parse_json_with_recovery`, `_attempt_json_recovery`,
  `_create_generic_fallback_result`).
* `src/clients/gemini.py` — the retry/backoff wrapper around one provider call
  (`GeminiClient.generate_content_async` under its tenacity decorator).
* `src/agents/refiner.py` — top-candidate selection
  (`RefinerAgent._get_top_candidates`).
* `src/orchestrator/pipeline.py` — the stage sequencing and partial-failure
  policy (`DeepThinkPipeline._execute_pipeline`).

Modelling conventions:

* Python real numbers (JSON numbers) are modelled by `ℚ`.  All arithmetic the
  theorems below depend on is exact in IEEE doubles as well (products of the
  weight table with the default score 5.0 and their sum are exactly
  representable), so the rational model agrees with the Python float values at
  every point a theorem evaluates.
* Python dicts coming from the model are modelled by structures with `Option`
  fields (`none` = key absent), or by association lists where the key set is
  dynamic.
* Exceptions are modelled by `Except`; `json.loads` is an external library
  function and is passed as an abstract `parse : String → Option JVal`
  parameter (`none` = `json.JSONDecodeError`).
-/

namespace DeepThink

/-- Python `str.replace('_', ' ')` as used for rubric names. -/
def underscoreToSpace (s : String) : String :=
  s.map (fun c => if c = '_' then ' ' else c)

/-- Python `round(x, 2)`: rounding to two decimal places.  Python uses
round-half-to-even; `round` here rounds half away from zero upward, which
agrees with Python everywhere except at exact half-cent ties, and no theorem
below evaluates the function at such a tie. -/
def round2 (q : ℚ) : ℚ :=
  (round (q * 100) : ℚ) / 100

/-- One rubric entry of the model-supplied JSON: `{"score": ..,
"justification": ..}` where either key may be absent. -/
structure RawRubric where
  score? : Option ℚ
  justification? : Option String
deriving Repr, DecidableEq

/-- A model-supplied evaluation dict before validation, as read by
`CriticAgent._validate_evaluation` (`src/agents/critic.py:189`).  Keys may be
absent; `rubric_scores` is a JSON object modelled as an association list. -/
structure RawEval where
  agentId? : Option ℤ
  rubricScores : List (String × RawRubric)
  strengths? : Option (List String)
  weaknesses? : Option (List String)
  targetedImprovements? : Option (List String)
  detailedFeedback? : Option String
deriving Repr, DecidableEq

/-- A validated rubric entry: score and justification always present. -/
structure Rubric where
  score : ℚ
  justification : String
deriving Repr, DecidableEq

/-- A validated Evaluation as produced by `_validate_evaluation` /
`_create_default_evaluation` (`src/agents/critic.py:189-268`). -/
structure Eval where
  agentId : ℤ
  rubricScores : List (String × Rubric)
  weightedTotalScore : ℚ
  strengths : List String
  weaknesses : List String
  targetedImprovements : List String
  detailedFeedback : String
deriving Repr, DecidableEq

/-- The fixed rubric weight table of `CriticAgent._validate_evaluation`
(`src/agents/critic.py:210-216`), in dict insertion order.  The weights sum to
1.2, not 1.0 (spec.md section 9 flags this). -/
def rubricWeights : List (String × ℚ) :=
  [("clarity_coherence", 2/10),
   ("logical_soundness", 4/10),
   ("completeness_depth", 3/10),
   ("originality_insight", 1/10),
   ("evidence_support", 2/10)]

/-- `rubric_scores.get(rubric_name, {})` — dict lookup with empty-dict
default. -/
def lookupRubric (scores : List (String × RawRubric)) (name : String) : RawRubric :=
  (scores.lookup name).getD ⟨none, none⟩

/-- One step of the `for rubric_name, weight in rubric_weights.items()` loop of
`_validate_evaluation` (`src/agents/critic.py:218-228`): appends the validated
rubric and accumulates the weighted total. -/
def validateRubricStep (evaluation : RawEval)
    (acc : List (String × Rubric) × ℚ) (nw : String × ℚ) :
    List (String × Rubric) × ℚ :=
  let rubricData := lookupRubric evaluation.rubricScores nw.1
  let rawScore := rubricData.score?.getD 5
  let normalizedScore := max 0 (min 10 rawScore)
  (acc.1 ++ [(nw.1,
      ⟨normalizedScore,
       rubricData.justification?.getD
         ("Standard " ++ underscoreToSpace nw.1 ++ " evaluation")⟩)],
   acc.2 + normalizedScore * nw.2)

/-- `CriticAgent._validate_evaluation` (`src/agents/critic.py:189-241`):
normalize a model-supplied evaluation.  Missing scores default to 5, present
scores are clamped to [0, 10] via `max(0, min(10, float(raw_score)))`, and the
weighted total is `round(Σ score·weight, 2)`. -/
def validateEvaluation (evaluation : RawEval) (agentId : ℤ) : Eval :=
  let r := rubricWeights.foldl (validateRubricStep evaluation) ([], 0)
  { agentId := agentId
    rubricScores := r.1
    weightedTotalScore := round2 r.2
    strengths := evaluation.strengths?.getD ["General reasoning approach"]
    weaknesses := evaluation.weaknesses?.getD ["Could benefit from improvement"]
    targetedImprovements :=
      evaluation.targetedImprovements?.getD ["Enhance reasoning clarity"]
    detailedFeedback :=
      evaluation.detailedFeedback?.getD
        "Standard evaluation - detailed analysis unavailable" }

/-- `CriticAgent._create_default_evaluation` (`src/agents/critic.py:243-268`):
the synthesized evaluation for a candidate the model response did not cover.
Every rubric score is 5.0 and `weighted_total_score` is the hardcoded literal
5.0 (the source comment reads "Weighted average with default scores"). -/
def createDefaultEvaluation (agentId : ℤ) : Eval :=
  { agentId := agentId
    rubricScores :=
      ["clarity_coherence", "logical_soundness", "completeness_depth",
       "originality_insight", "evidence_support"].map
        (fun name =>
          (name, ⟨5, "Default " ++ underscoreToSpace name ++
                     " score - detailed evaluation unavailable"⟩))
    weightedTotalScore := 5
    strengths := ["Attempted the problem"]
    weaknesses := ["Limited evaluation available"]
    targetedImprovements := ["Provide more detailed reasoning"]
    detailedFeedback :=
      "Default evaluation - original response may have been incomplete or failed to parse" }

/-- Sum of `5.0 × weight` over the fixed weight table, the constant the spec
says a fully-default Evaluation's `weighted_total_score` should equal. -/
def defaultScoreWeightSum : ℚ :=
  rubricWeights.foldl (fun acc nw => acc + 5 * nw.2) 0

/-- One ranking entry produced by `CriticAgent._create_ranking`
(`src/agents/critic.py:270-299`).  The `rationale` string of the source is
prompt text (out of scope per spec.md section 1) and is omitted. -/
structure RankEntry where
  agentId : ℤ
  weightedTotalScore : ℚ
  rank : ℕ
deriving Repr, DecidableEq

/-- `CriticAgent._create_ranking` (`src/agents/critic.py:270-299`):
`sorted(evaluations, key=weighted_total_score, reverse=True)` followed by
`enumerate(sorted_evals, 1)`.  Python `sorted` is a stable sort; a stable sort
for a fixed total preorder is unique, so the stable `List.mergeSort` with the
descending comparison computes the same list. -/
def createRanking (evaluations : List Eval) : List RankEntry :=
  let sortedEvals :=
    evaluations.mergeSort
      (fun a b => decide (b.weightedTotalScore ≤ a.weightedTotalScore))
  sortedEvals.enum.map (fun p => ⟨p.2.agentId, p.2.weightedTotalScore, p.1 + 1⟩)

/-- A Candidate as the critic sees it: a dict whose `agent_id` key may in
principle be absent (`c.get("agent_id", i)` defaults to the list index).
`answer` stands for the candidate's answer text. -/
structure Candidate where
  agentId? : Option ℤ
  answer : String
deriving Repr, DecidableEq

/-- `[c.get("agent_id", i) for i, c in enumerate(candidates)]`
(`src/agents/critic.py:147`). -/
def candidateIds (candidates : List Candidate) : List ℤ :=
  candidates.enum.map (fun p => p.2.agentId?.getD p.1)

/-- The model-supplied critique dict before validation. -/
structure RawCritique where
  evaluations : List RawEval
  overallAssessment? : Option String
  improvementSuggestions? : Option (List String)
deriving Repr, DecidableEq

/-- The validated critique returned by `_validate_and_enhance_critique`. -/
structure CritiqueOut where
  evaluations : List Eval
  ranking : List RankEntry
  overallAssessment : String
  improvementSuggestions : List String
deriving Repr, DecidableEq

/-- `next((e for e in evaluations if e.get("agent_id") == candidate_id), None)`
(`src/agents/critic.py:152-155`).  A raw evaluation with no `agent_id` key
never matches (`None == candidate_id` is false in Python). -/
def findRawEval (evaluations : List RawEval) (candidateId : ℤ) : Option RawEval :=
  evaluations.find? (fun e => e.agentId? == some candidateId)

/-- `CriticAgent._validate_and_enhance_critique`
(`src/agents/critic.py:129-187`): one evaluation per candidate id, validated
when the model covered the candidate and synthesized as default otherwise,
plus the ranking and defaulted commentary fields. -/
def validateAndEnhanceCritique (critique : RawCritique)
    (candidates : List Candidate) : CritiqueOut :=
  let enhancedEvaluations :=
    (candidateIds candidates).map (fun candidateId =>
      match findRawEval critique.evaluations candidateId with
      | some existingEval => validateEvaluation existingEval candidateId
      | none => createDefaultEvaluation candidateId)
  { evaluations := enhancedEvaluations
    ranking := createRanking enhancedEvaluations
    overallAssessment :=
      critique.overallAssessment?.getD
        ("Evaluated " ++ toString candidates.length ++
         " candidates with varying quality.")
    improvementSuggestions :=
      critique.improvementSuggestions?.getD
        ["Consider more detailed reasoning", "Provide better evidence"] }

/-! ## Response normalizer (`src/agents/base.py:330-460`) -/

/-- JSON values as Python's `json.loads` returns them (dicts modelled as
association lists in key order). -/
inductive JVal where
  | null
  | bool (b : Bool)
  | num (q : ℚ)
  | str (s : String)
  | arr (elems : List JVal)
  | obj (fields : List (String × JVal))

/-- Python truthiness of a JSON value (`if recovered_result:` /
`if fallback_result:` in `_parse_json_with_recovery`). -/
def JVal.pyTruthy : JVal → Bool
  | .null => false
  | .bool b => b
  | .num q => q != 0
  | .str s => s != ""
  | .arr elems => !elems.isEmpty
  | .obj fields => !fields.isEmpty

/-- The characters Python `str.strip()` removes. -/
def isPySpace (c : Char) : Bool :=
  c = ' ' || c = '\t' || c = '\n' || c = '\r' || c = '\x0b' || c = '\x0c'

/-- Python `str.strip()`. -/
def pyStrip (s : String) : String :=
  String.mk (((s.toList.dropWhile isPySpace).reverse.dropWhile isPySpace).reverse)

/-- Python `str.count(c)` for a single character. -/
def pyCount (s : String) (c : Char) : ℕ :=
  s.toList.count c

/-- The brace-balance scan of `_attempt_json_recovery`
(`src/agents/base.py:388-402`): walking the lines, a candidate prefix is
emitted whenever the running brace count returns to zero on a line whose
stripped form ends in a closing brace.  The source attempts `json.loads` on
each candidate as it is found; collecting the candidates in order and taking
the first successful parse (below) is equivalent. -/
def braceCandidatesGo : List String → List String → ℤ → List String
  | [], _, _ => []
  | line :: rest, acc, braceCount =>
    let acc' := acc ++ [line]
    let braceCount' :=
      braceCount + (pyCount line '\x7b' : ℤ) - (pyCount line '\x7d' : ℤ)
    let here :=
      if braceCount' == 0 && (pyStrip line).endsWith "\x7d" then
        [String.intercalate "\n" acc']
      else []
    here ++ braceCandidatesGo rest acc' braceCount'

/-- All candidate strings of the brace-balance recovery strategy, applied to
the (already stripped) response split on newlines. -/
def braceCandidates (r : String) : List String :=
  braceCandidatesGo (r.splitOn "\n") [] 0

/-- Python `response.rsplit('"', 1)[0]`: everything before the last double
quote (only used when the response contains a quote). -/
def beforeLastQuote (r : String) : String :=
  String.mk (((r.toList.reverse.dropWhile (fun c => c != '\"')).drop 1).reverse)

/-- The three fix-up variants of the string-closing recovery strategy
(`src/agents/base.py:404-417`), tried only when the response contains a double
quote and its stripped form does not already end in a closing brace. -/
def stringFixCandidates (r : String) : List String :=
  if r.contains '\"' && !((pyStrip r).endsWith "\x7d") then
    [r ++ "\"\x7d\n\x7d", r ++ "\"\x7d", beforeLastQuote r ++ "\"\x7d"]
  else []

/-- Index of the last occurrence of `c`, if any. -/
def lastIndexOfChar (c : Char) (cs : List Char) : Option ℕ :=
  match cs.reverse.indexOf? c with
  | none => none
  | some k => some (cs.length - 1 - k)

/-- The embedded-block extraction strategy (`src/agents/base.py:419-425`):
`re.search(r'\{.*\}', response, re.DOTALL)` matches iff the first opening
brace precedes the last closing brace, and the greedy match is exactly the
substring from that first opening brace to that last closing brace. -/
def extractCandidates (r : String) : List String :=
  let cs := r.toList
  match cs.indexOf? '\x7b', lastIndexOfChar '\x7d' cs with
  | some i, some j =>
    if i < j then [String.mk ((cs.drop i).take (j - i + 1))] else []
  | _, _ => []

/-- Every string `_attempt_json_recovery` hands to `json.loads`, in attempt
order: brace-balance prefixes, then the three string fix-ups, then the
extracted embedded block.  The source works on the stripped response
throughout (`response = response.strip()` at `src/agents/base.py:385`). -/
def recoveryCandidates (response : String) : List String :=
  let r := pyStrip response
  braceCandidates r ++ stringFixCandidates r ++ extractCandidates r

/-- `BaseAgent._attempt_json_recovery` (`src/agents/base.py:373-435`): the
first candidate that parses wins; if none parses the function returns `None`
(the outer `try/except` also returns `None`, and the embedding is total, so no
exception escapes). -/
def attemptJsonRecovery (parse : String → Option JVal) (response : String) :
    Option JVal :=
  (recoveryCandidates response).findSome? parse

/-- `BaseAgent._create_generic_fallback_result` (`src/agents/base.py:437-460`),
with the raw response truncated to 1000 characters. -/
def createGenericFallbackResult (agentId agentType : String)
    (rawResponse : String) : JVal :=
  .obj [("error", .str "JSON parsing failed"),
        ("raw_response", .str (String.mk (rawResponse.toList.take 1000))),
        ("fallback", .bool true),
        ("agent_id", .str agentId),
        ("agent_type", .str agentType)]

/-- `BaseAgent._parse_json_with_recovery` (`src/agents/base.py:330-371`).
`parse` stands for `json.loads` (`none` = `json.JSONDecodeError`).  Both the
recovered result and the caller-supplied fallback pass through Python
truthiness checks before being returned. -/
def parseJsonWithRecovery (parse : String → Option JVal) (response : String)
    (fallbackResult : Option JVal) (agentId agentType : String) : JVal :=
  match parse response with
  | some parsed => parsed
  | none =>
    let fallbackBranch :=
      match fallbackResult with
      | some fb =>
        if fb.pyTruthy then fb
        else createGenericFallbackResult agentId agentType response
      | none => createGenericFallbackResult agentId agentType response
    match attemptJsonRecovery parse response with
    | some recovered => if recovered.pyTruthy then recovered else fallbackBranch
    | none => fallbackBranch

/-! ## Model invoker retry wrapper (`src/clients/gemini.py:59-164`) -/

/-- Failures of one provider call: any exception raised by the SDK or the
`asyncio.wait_for` timeout (`exc`), or the
`ValueError("Empty response from Gemini API")` the body raises for an empty
`response.text` (`src/clients/gemini.py:137-143`). -/
inductive GenErr where
  | exc (msg : String)
  | emptyResponse
deriving Repr, DecidableEq

/-- One un-retried execution of the `generate_content_async` body: a raised
provider error propagates; an empty body raises `emptyResponse`; otherwise the
body's text is returned stripped (`result = response.text.strip()`,
`src/clients/gemini.py:145`). -/
def geminiAttempt (response : Except GenErr String) : Except GenErr String :=
  match response with
  | .error e => .error e
  | .ok text => if text = "" then .error .emptyResponse else .ok (pyStrip text)

/-- tenacity `wait_exponential(multiplier, min, max, exp_base)`: the sleep
before retrying after attempt number `attemptNumber` is
`max(max(0, min), min(multiplier * exp_base^(attemptNumber - 1), max))`. -/
def waitExponential (multiplier minWait maxWait expBase : ℚ)
    (attemptNumber : ℕ) : ℚ :=
  max (max 0 minWait) (min (multiplier * expBase ^ (attemptNumber - 1)) maxWait)

/-- `GeminiClient.generate_content_async` under its retry decorator
(`src/clients/gemini.py:59-66`): `stop_after_attempt(3)`,
`wait_exponential(multiplier=1, min=1, max=60)`, retrying on every exception.
`attempt k` is the provider outcome of the k-th attempt; the second component
is the list of backoff delays slept between attempts.  On exhaustion tenacity
raises (a `RetryError` wrapping the last exception, modelled as that error). -/
def retryGenerate (attempt : ℕ → Except GenErr String) :
    Except GenErr String × List ℚ :=
  match geminiAttempt (attempt 1) with
  | .ok t => (.ok t, [])
  | .error _ =>
    let d1 := waitExponential 1 1 60 2 1
    match geminiAttempt (attempt 2) with
    | .ok t => (.ok t, [d1])
    | .error _ =>
      let d2 := waitExponential 1 1 60 2 2
      match geminiAttempt (attempt 3) with
      | .ok t => (.ok t, [d1, d2])
      | .error e => (.error e, [d1, d2])

/-- An attempt counts as failing when the provider raised or returned an empty
body — both are retried (`retry_if_exception_type((Exception,))` together with
the body's `ValueError` for empty text). -/
def attemptFails (response : Except GenErr String) : Bool :=
  match response with
  | .error _ => true
  | .ok text => text = ""

/-! ## Refiner top-candidate selection (`src/agents/refiner.py:106-148`) -/

/-- A selected top candidate: `candidate.copy()` with the added `critique`
(`evaluation_map.get(agent_id, {})`, `none` = empty dict) and `rank` keys.
The source also writes `candidate["total_score"] =
rank_info.get("total_score")`, which is always `None` because ranking entries
carry no `total_score` key (they carry `weighted_total_score`); the constant
`None` field is omitted from the model. -/
structure TopCandidate where
  base : Candidate
  critiqueEval : Option Eval
  rank : ℕ
deriving Repr, DecidableEq

/-- `candidate_map = {c.get("agent_id", i): c for i, c in
enumerate(candidates)}` (`src/agents/refiner.py:127`) as an association list
in insertion order. -/
def candidateAssoc (candidates : List Candidate) : List (ℤ × Candidate) :=
  candidates.enum.map (fun p => (p.2.agentId?.getD p.1, p.2))

/-- Python dict lookup over an insertion-ordered association list: the last
binding for a key wins. -/
def dictLookup {β : Type} (assoc : List (ℤ × β)) (k : ℤ) : Option β :=
  assoc.reverse.lookup k

/-- `evaluation_map = {e.get("agent_id"): e for e in evaluations}`
(`src/agents/refiner.py:128`); validated evaluations always carry their
`agent_id`. -/
def evalAssoc (evaluations : List Eval) : List (ℤ × Eval) :=
  evaluations.map (fun e => (e.agentId, e))

/-- `RefinerAgent._get_top_candidates` (`src/agents/refiner.py:106-148`): walk
`ranking[:top_k]` and keep each entry whose `agent_id` is a key of
`candidate_map` (`agent_id in candidate_map` is exactly a successful lookup),
pairing the candidate with its evaluation and rank. -/
def getTopCandidates (critique : CritiqueOut) (candidates : List Candidate)
    (topK : ℕ) : List TopCandidate :=
  (critique.ranking.take topK).filterMap (fun rankInfo =>
    match dictLookup (candidateAssoc candidates) rankInfo.agentId with
    | some cand =>
      some ⟨cand, dictLookup (evalAssoc critique.evaluations) rankInfo.agentId,
            rankInfo.rank⟩
    | none => none)

/-! ## Pipeline orchestrator (`src/orchestrator/pipeline.py:144-320`)

The stage agents are opaque awaited calls from the orchestrator's point of
view, so they are passed as `Except`-valued oracles; candidate, critique and
research records are type parameters.  A call trace records which stage calls
the control flow actually performs. -/

/-- The fields of `plan_result["plan"]` the orchestrator reads
(`plan.get("research_needed", False)` and `plan.get("research_steps")`). -/
structure PlanOut where
  researchNeeded : Bool
  researchSteps : List String
deriving Repr, DecidableEq

/-- The planner's result dict; `plan_result.get("plan", {})` defaults to an
empty dict, i.e. no research. -/
structure PlanResult where
  plan? : Option PlanOut
deriving Repr, DecidableEq

/-- The fields of the refiner's result the orchestrator reads. -/
structure RefineOut where
  finalAnswer? : Option String
  synthesisApproach? : Option String
  confidenceLevel? : Option String
deriving Repr, DecidableEq

/-- The fields of the meta-refiner's result the orchestrator reads. -/
structure MetaOut where
  metaRefinedAnswer? : Option String
  synthesisType? : Option String
  eleganceScore? : Option ℤ
  intellectualDepth? : Option String
deriving Repr, DecidableEq

/-- One stage call the orchestrator performs, with the arguments it passes. -/
inductive StageCall (Cand CritR : Type) where
  | plan
  | research
  | think (seed : ℕ)
  | critique (cands : List Cand)
  | refine (critiqueResult : CritR) (cands : List Cand) (topK : ℕ)
  | metaRefine (refinedSolution : String)
deriving DecidableEq

/-- A stage call belonging to the fan-out prefix of the pipeline (everything
before the critique join point). -/
def StageCall.isPreCritique {Cand CritR : Type} : StageCall Cand CritR → Bool
  | .plan => true
  | .research => true
  | .think _ => true
  | _ => false

/-- A failure escaping `_execute_pipeline`: a propagated exception of a fatal
stage (plan, critique, refine), or the
`RuntimeError("All thinking paths failed")` of `src/orchestrator/pipeline.py:236`
(the spec's `AllPathsFailed`). -/
inductive PipeError (E : Type) where
  | agent (e : E)
  | allPathsFailed
deriving Repr, DecidableEq

/-- The result dict of `_execute_pipeline` (`src/orchestrator/pipeline.py:296-320`):
answer, the metadata record, and the detailed per-stage records. -/
structure PipelineResult (Cand CritR R : Type) where
  query : String
  answer : String
  nPaths : ℕ
  candidatesGenerated : ℕ
  candidatesFailed : ℕ
  topKUsed : ℕ
  synthesisApproach : Option String
  confidenceLevel : Option String
  researchConducted : Bool
  metaRefinementApplied : Bool
  eleganceScore : Option ℤ
  intellectualDepth : Option String
  pipelineStages : List String
  planDetail : PlanResult
  researchDetail : Option R
  candidatesDetail : List Cand
  critiqueDetail : CritR
  synthesisDetail : RefineOut
  metaRefinementDetail : Option MetaOut
deriving DecidableEq

/-- `Except.isOk` as a standalone helper. -/
def exceptIsOk {ε α : Type} : Except ε α → Bool
  | .ok _ => true
  | .error _ => false

/-- `Except.toOption` as a standalone helper. -/
def exceptToOption {ε α : Type} : Except ε α → Option α
  | .ok a => some a
  | .error _ => none

/-- Stage 1.5 (`src/orchestrator/pipeline.py:169-193`): research runs only
when the plan asks for it and has a non-empty step list; a research failure is
caught and recorded as `None` (non-fatal).  Returns the research result and
the stage calls performed. -/
def researchStage {E R Cand CritR : Type} (plan : PlanOut)
    (researchFn : List String → Except E R) :
    Option R × List (StageCall Cand CritR) :=
  if plan.researchNeeded && !plan.researchSteps.isEmpty then
    match researchFn plan.researchSteps with
    | .ok r => (some r, [.research])
    | .error _ => (none, [.research])
  else (none, [])

/-- The fan-out outcomes `candidates = await asyncio.gather(*thinker_tasks,
return_exceptions=True)` (`src/orchestrator/pipeline.py:218`): one outcome per
seed `0..nPaths-1`, in seed order. -/
def thinkOutcomes {E Cand : Type} (thinkFn : ℕ → Except E Cand) (nPaths : ℕ) :
    List (Except E Cand) :=
  (List.range nPaths).map thinkFn

/-- `valid_candidates` (`src/orchestrator/pipeline.py:221-233`): the successes
of the fan-out, in seed order. -/
def validThink {E Cand : Type} (thinkFn : ℕ → Except E Cand) (nPaths : ℕ) :
    List Cand :=
  (thinkOutcomes thinkFn nPaths).filterMap exceptToOption

/-- `failed_count` (`src/orchestrator/pipeline.py:222-231`): the number of
fan-out outcomes that are exceptions. -/
def failedThinkCount {E Cand : Type} (thinkFn : ℕ → Except E Cand)
    (nPaths : ℕ) : ℕ :=
  ((thinkOutcomes thinkFn nPaths).filter (fun o => !exceptIsOk o)).length

/-- `pipeline_stages` metadata (`src/orchestrator/pipeline.py:292-294`): the
five stage names, with "research" inserted after "planning" when research ran
(`ToolAgent.execute` always returns a non-empty dict, so the source's dict
truthiness test coincides with presence). -/
def pipelineStageNames (researchConducted : Bool) : List String :=
  if researchConducted then
    ["planning", "research", "thinking", "critique", "refinement",
     "meta_refinement"]
  else
    ["planning", "thinking", "critique", "refinement", "meta_refinement"]

/-- The result dict assembled at `src/orchestrator/pipeline.py:296-320`. -/
def buildPipelineResult {Cand CritR R : Type} (query : String)
    (nPaths topK : ℕ) (planResult : PlanResult) (researchResults : Option R)
    (validCandidates : List Cand) (failedCount : ℕ) (critiqueResult : CritR)
    (refinementResult : RefineOut) (metaResult? : Option MetaOut)
    (finalAnswer : String) : PipelineResult Cand CritR R :=
  { query := query
    answer := finalAnswer
    nPaths := nPaths
    candidatesGenerated := validCandidates.length
    candidatesFailed := failedCount
    topKUsed := topK
    synthesisApproach := refinementResult.synthesisApproach?
    confidenceLevel := refinementResult.confidenceLevel?
    researchConducted := researchResults.isSome
    metaRefinementApplied := metaResult?.isSome
    eleganceScore := metaResult?.bind (·.eleganceScore?)
    intellectualDepth := metaResult?.bind (·.intellectualDepth?)
    pipelineStages := pipelineStageNames researchResults.isSome
    planDetail := planResult
    researchDetail := researchResults
    candidatesDetail := validCandidates
    critiqueDetail := critiqueResult
    synthesisDetail := refinementResult
    metaRefinementDetail := metaResult? }

/-- `DeepThinkPipeline._execute_pipeline` (`src/orchestrator/pipeline.py:144-320`).
Stage order: plan (fatal on failure), optional research (non-fatal), the Think
fan-out over seeds `0..nPaths-1` whose results are collected in seed order
(`asyncio.gather(..., return_exceptions=True)` preserves index order),
all-fail abort, critique (fatal), refine (fatal), meta-refine (non-fatal). -/
def executePipeline {E Cand CritR R : Type}
    (planFn : Except E PlanResult)
    (researchFn : List String → Except E R)
    (thinkFn : ℕ → Except E Cand)
    (critiqueFn : List Cand → Except E CritR)
    (refineFn : CritR → List Cand → ℕ → Except E RefineOut)
    (metaFn : String → Except E MetaOut)
    (query : String) (nPaths : ℕ) (topK : ℕ) :
    Except (PipeError E) (PipelineResult Cand CritR R) ×
      List (StageCall Cand CritR) :=
  match planFn with
  | .error e => (.error (.agent e), [.plan])
  | .ok planResult =>
    let plan := planResult.plan?.getD ⟨false, []⟩
    let researchPair : Option R × List (StageCall Cand CritR) :=
      researchStage plan researchFn
    let validCandidates := validThink thinkFn nPaths
    let failedCount := failedThinkCount thinkFn nPaths
    let baseTrace :=
      [StageCall.plan] ++ researchPair.2 ++ (List.range nPaths).map .think
    if validCandidates.isEmpty then
      (.error .allPathsFailed, baseTrace)
    else
      match critiqueFn validCandidates with
      | .error e => (.error (.agent e), baseTrace ++ [.critique validCandidates])
      | .ok critiqueResult =>
        match refineFn critiqueResult validCandidates topK with
        | .error e =>
          (.error (.agent e),
           baseTrace ++ [.critique validCandidates,
                         .refine critiqueResult validCandidates topK])
        | .ok refinementResult =>
          let refinedSolution := refinementResult.finalAnswer?.getD ""
          let trace :=
            baseTrace ++ [.critique validCandidates,
                          .refine critiqueResult validCandidates topK,
                          .metaRefine refinedSolution]
          match metaFn refinedSolution with
          | .ok metaResult =>
            (.ok (buildPipelineResult query nPaths topK planResult
                    researchPair.1 validCandidates failedCount critiqueResult
                    refinementResult (some metaResult)
                    (metaResult.metaRefinedAnswer?.getD
                      (refinementResult.finalAnswer?.getD ""))),
             trace)
          | .error _ =>
            (.ok (buildPipelineResult query nPaths topK planResult
                    researchPair.1 validCandidates failedCount critiqueResult
                    refinementResult none
                    (refinementResult.finalAnswer?.getD
                      "Unable to generate answer")),
             trace)

/-! ## Theorems -/

/-- C1, counterexample: the Evaluation synthesized by
`_create_default_evaluation` carries the hardcoded `weighted_total_score` 5.0,
which differs from Σ(5.0 × weight) over the fixed weight table (= 6.0, the
weights summing to 1.2).  The claim is therefore false as stated. -/
theorem c1Counterexample :
    (createDefaultEvaluation 0).weightedTotalScore ≠ defaultScoreWeightSum := by
  norm_num [createDefaultEvaluation, defaultScoreWeightSum, rubricWeights]

/-- C1 (amended): for a fully-default Evaluation synthesized by the Critique
stage (every rubric score 5.0) the `weighted_total_score` is the hardcoded
constant 5.0, not Σ(5.0 × weight); that sum equals 6.0 and is exactly the
`weighted_total_score` that `_validate_evaluation` computes when every rubric
score defaults to 5.0. -/
theorem c1DefaultEvaluationScore (agentId : ℤ) :
    (createDefaultEvaluation agentId).weightedTotalScore = 5 ∧
    defaultScoreWeightSum = 6 ∧
    (validateEvaluation ⟨none, [], none, none, none, none⟩ agentId).weightedTotalScore =
      defaultScoreWeightSum := by
  refine ⟨rfl, by norm_num [defaultScoreWeightSum, rubricWeights], ?_⟩
  norm_num [validateEvaluation, validateRubricStep, lookupRubric, rubricWeights,
    defaultScoreWeightSum, round2, round_eq]

/-- C4: when the raw text parses directly, the normalizer returns exactly that
parse; neither the recovery strategies nor the fallback are consulted. -/
theorem parseJsonWithRecovery_direct (parse : String → Option JVal)
    (response : String) (fallbackResult : Option JVal)
    (agentId agentType : String) (v : JVal) (h : parse response = some v) :
    parseJsonWithRecovery parse response fallbackResult agentId agentType = v := by
  unfold parseJsonWithRecovery
  rw [h]

/-- C4, witness: a parse function succeeding on the concrete input "x". -/
theorem parseJsonWithRecovery_direct_witness :
    (fun s => if s = "x" then some (JVal.num 1) else none) "x" = some (JVal.num 1) ∧
    parseJsonWithRecovery (fun s => if s = "x" then some (JVal.num 1) else none)
      "x" none "agent" "Agent" = JVal.num 1 :=
  ⟨rfl, parseJsonWithRecovery_direct _ _ _ _ _ _ rfl⟩

/-- C5: when direct parsing fails and every string the recovery strategies
hand to the parser fails to parse, the normalizer returns exactly the
caller-supplied fallback record (the hypothesis `pyTruthy` states that the
fallback is a structurally valid, hence non-empty, record — every role's
fallback in the repository is).  The embedding is total, so no exception
escapes. -/
theorem parseJsonWithRecovery_fallback (parse : String → Option JVal)
    (response : String) (fb : JVal) (agentId agentType : String)
    (hdirect : parse response = none)
    (hrec : ∀ s ∈ recoveryCandidates response, parse s = none)
    (htruthy : fb.pyTruthy = true) :
    parseJsonWithRecovery parse response (some fb) agentId agentType = fb := by
  have hnone : attemptJsonRecovery parse response = none := by
    unfold attemptJsonRecovery
    rw [List.findSome?_eq_none_iff]
    exact hrec
  unfold parseJsonWithRecovery
  rw [hdirect, hnone]
  simp [htruthy]

/-- C5, witness: a parser failing everywhere and a truthy fallback record. -/
theorem parseJsonWithRecovery_fallback_witness :
    ((fun _ => none : String → Option JVal) "bad output" = none) ∧
    (JVal.num 1).pyTruthy = true ∧
    parseJsonWithRecovery (fun _ => none) "bad output" (some (JVal.num 1))
      "agent" "Agent" = JVal.num 1 :=
  ⟨rfl, rfl, parseJsonWithRecovery_fallback _ _ _ _ _ rfl (fun _ _ => rfl) rfl⟩

/-- C6, counterexample: a provider body consisting of a single space is not
empty, so it is accepted as a success, and the returned text is its stripped
form — the empty string.  The claim that success always carries non-empty
text is therefore false as stated. -/
theorem c6Counterexample :
    (retryGenerate (fun _ => Except.ok " ")).1 = Except.ok "" ∧
    ("" : String).length = 0 :=
  ⟨rfl, rfl⟩

/-- Helper: stripping leaves a non-empty string whenever some character is not
Python whitespace. -/
theorem pyStrip_ne_empty_of_nonspace (u : String)
    (h : u.toList.any (fun c => !isPySpace c) = true) : pyStrip u ≠ "" := by
  intro hempty
  have hlist : ((u.toList.dropWhile isPySpace).reverse.dropWhile isPySpace).reverse = [] := by
    have := congrArg String.toList hempty
    simpa [pyStrip] using this
  rw [List.reverse_eq_nil_iff, List.dropWhile_eq_nil_iff] at hlist
  obtain ⟨c, hc, hcs⟩ := List.any_eq_true.mp h
  have hcall : ∀ a ∈ u.toList.dropWhile isPySpace, isPySpace a := by
    intro a ha
    exact hlist a (List.mem_reverse.mpr ha)
  have hmem : c ∈ u.toList.takeWhile isPySpace ++ u.toList.dropWhile isPySpace := by
    rw [List.takeWhile_append_dropWhile]
    exact hc
  have : isPySpace c = true := by
    rcases List.mem_append.mp hmem with h1 | h2
    · exact List.mem_takeWhile_imp h1
    · exact hcall c h2
  simp [this] at hcs

/-- Helper: a successful `geminiAttempt` comes from a non-empty body and
returns its stripped text. -/
theorem geminiAttempt_ok (r : Except GenErr String) (t : String)
    (h : geminiAttempt r = Except.ok t) :
    ∃ u, r = Except.ok u ∧ u ≠ "" ∧ t = pyStrip u := by
  cases r with
  | error e => simp [geminiAttempt] at h
  | ok u =>
    by_cases hu : u = ""
    · simp [geminiAttempt, hu] at h
    · refine ⟨u, rfl, hu, ?_⟩
      simp only [geminiAttempt, if_neg hu] at h
      exact (Except.ok.inj h).symm

/-- Helper: a failing attempt (raised error or empty body) makes
`geminiAttempt` raise. -/
theorem geminiAttempt_error_of_fails (r : Except GenErr String)
    (h : attemptFails r = true) : ∃ e, geminiAttempt r = Except.error e := by
  cases r with
  | error e => exact ⟨e, rfl⟩
  | ok u =>
    simp only [attemptFails, decide_eq_true_eq] at h
    exact ⟨GenErr.emptyResponse, by simp [geminiAttempt, h]⟩

/-- Helper: shape of the retry loop when the first attempt succeeds. -/
theorem retryGenerate_eq_ok1 (attempt : ℕ → Except GenErr String) (t : String)
    (h1 : geminiAttempt (attempt 1) = Except.ok t) :
    retryGenerate attempt = (Except.ok t, []) := by
  unfold retryGenerate
  rw [h1]

/-- Helper: shape of the retry loop when the first attempt fails and the
second succeeds; the backoff schedule evaluates to a 1 second sleep. -/
theorem retryGenerate_eq_ok2 (attempt : ℕ → Except GenErr String)
    (e1 : GenErr) (t : String)
    (h1 : geminiAttempt (attempt 1) = Except.error e1)
    (h2 : geminiAttempt (attempt 2) = Except.ok t) :
    retryGenerate attempt = (Except.ok t, [1]) := by
  unfold retryGenerate
  rw [h1, h2]
  norm_num [waitExponential]

/-- Helper: shape of the retry loop when the first two attempts fail and the
third succeeds; the backoff schedule evaluates to 1 s then 2 s. -/
theorem retryGenerate_eq_ok3 (attempt : ℕ → Except GenErr String)
    (e1 e2 : GenErr) (t : String)
    (h1 : geminiAttempt (attempt 1) = Except.error e1)
    (h2 : geminiAttempt (attempt 2) = Except.error e2)
    (h3 : geminiAttempt (attempt 3) = Except.ok t) :
    retryGenerate attempt = (Except.ok t, [1, 2]) := by
  unfold retryGenerate
  rw [h1, h2, h3]
  norm_num [waitExponential]

/-- Helper: shape of the retry loop when all three attempts fail: the last
error is raised after the 1 s and 2 s backoffs. -/
theorem retryGenerate_eq_err (attempt : ℕ → Except GenErr String)
    (e1 e2 e3 : GenErr)
    (h1 : geminiAttempt (attempt 1) = Except.error e1)
    (h2 : geminiAttempt (attempt 2) = Except.error e2)
    (h3 : geminiAttempt (attempt 3) = Except.error e3) :
    retryGenerate attempt = (Except.error e3, [1, 2]) := by
  unfold retryGenerate
  rw [h1, h2, h3]
  norm_num [waitExponential]

/-- Helper: the four possible outcomes of the retry loop. -/
theorem retryGenerate_shape (attempt : ℕ → Except GenErr String) :
    (∃ t, geminiAttempt (attempt 1) = Except.ok t ∧
      retryGenerate attempt = (Except.ok t, [])) ∨
    (∃ t, geminiAttempt (attempt 2) = Except.ok t ∧
      retryGenerate attempt = (Except.ok t, [1])) ∨
    (∃ t, geminiAttempt (attempt 3) = Except.ok t ∧
      retryGenerate attempt = (Except.ok t, [1, 2])) ∨
    (∃ e, geminiAttempt (attempt 3) = Except.error e ∧
      retryGenerate attempt = (Except.error e, [1, 2])) := by
  cases h1 : geminiAttempt (attempt 1) with
  | ok t => exact Or.inl ⟨t, rfl, retryGenerate_eq_ok1 attempt t h1⟩
  | error e1 =>
    cases h2 : geminiAttempt (attempt 2) with
    | ok t => exact Or.inr (Or.inl ⟨t, rfl, retryGenerate_eq_ok2 attempt e1 t h1 h2⟩)
    | error e2 =>
      cases h3 : geminiAttempt (attempt 3) with
      | ok t =>
        exact Or.inr (Or.inr (Or.inl ⟨t, rfl, retryGenerate_eq_ok3 attempt e1 e2 t h1 h2 h3⟩))
      | error e3 =>
        exact Or.inr (Or.inr (Or.inr ⟨e3, rfl, retryGenerate_eq_err attempt e1 e2 e3 h1 h2 h3⟩))

/-- C6 (amended): the invoker retries any failing attempt — raised errors and
empty bodies alike — up to 3 attempts; the backoff slept between attempts
follows the exponential schedule starting at 1 second and capped at 60
seconds (concretely 1 s then 2 s); after 3 failing attempts it raises; on
success it returns the stripped text of the first non-failing attempt, which
is non-empty whenever that body contains any non-whitespace character (a
whitespace-only body, however, is accepted and strips to empty text). -/
theorem retryGenerate_policy (attempt : ℕ → Except GenErr String) :
    ((attemptFails (attempt 1) = true ∧ attemptFails (attempt 2) = true ∧
      attemptFails (attempt 3) = true) →
      ∃ e, retryGenerate attempt = (Except.error e, [1, 2])) ∧
    ((retryGenerate attempt).2 =
        [waitExponential 1 1 60 2 1, waitExponential 1 1 60 2 2].take
          (retryGenerate attempt).2.length ∧
      waitExponential 1 1 60 2 1 = 1 ∧ waitExponential 1 1 60 2 2 = 2 ∧
      ∀ d ∈ (retryGenerate attempt).2, 1 ≤ d ∧ d ≤ 60) ∧
    (∀ t, (retryGenerate attempt).1 = Except.ok t →
      ∃ k, k ∈ [1, 2, 3] ∧ ∃ u, attempt k = Except.ok u ∧ u ≠ "" ∧
        t = pyStrip u ∧
        (u.toList.any (fun c => !isPySpace c) = true → t ≠ "")) := by
  have hw1 : waitExponential 1 1 60 2 1 = 1 := by norm_num [waitExponential]
  have hw2 : waitExponential 1 1 60 2 2 = 2 := by norm_num [waitExponential]
  refine ⟨?_, ⟨?_, hw1, hw2, ?_⟩, ?_⟩
  · rintro ⟨f1, f2, f3⟩
    obtain ⟨e1, he1⟩ := geminiAttempt_error_of_fails _ f1
    obtain ⟨e2, he2⟩ := geminiAttempt_error_of_fails _ f2
    obtain ⟨e3, he3⟩ := geminiAttempt_error_of_fails _ f3
    exact ⟨e3, retryGenerate_eq_err attempt e1 e2 e3 he1 he2 he3⟩
  · rcases retryGenerate_shape attempt with ⟨t, _, h⟩ | ⟨t, _, h⟩ | ⟨t, _, h⟩ | ⟨e, _, h⟩ <;>
      rw [h, hw1, hw2] <;> rfl
  · intro d hd
    have hmem : d ∈ [(1 : ℚ), 2] := by
      rcases retryGenerate_shape attempt with ⟨t, _, h⟩ | ⟨t, _, h⟩ | ⟨t, _, h⟩ | ⟨e, _, h⟩ <;>
        rw [h] at hd <;> simp_all
    rcases List.mem_cons.mp hmem with h | h
    · rw [h]; norm_num
    · rw [List.mem_singleton.mp h]; norm_num
  · intro t ht
    rcases retryGenerate_shape attempt with ⟨t1, hg, h⟩ | ⟨t1, hg, h⟩ | ⟨t1, hg, h⟩ | ⟨e, _, h⟩
    · rw [h] at ht
      obtain ⟨u, hu, hne, hstrip⟩ := geminiAttempt_ok _ _ hg
      cases ht
      exact ⟨1, by simp, u, hu, hne, hstrip,
        fun hc => hstrip ▸ pyStrip_ne_empty_of_nonspace u hc⟩
    · rw [h] at ht
      obtain ⟨u, hu, hne, hstrip⟩ := geminiAttempt_ok _ _ hg
      cases ht
      exact ⟨2, by simp, u, hu, hne, hstrip,
        fun hc => hstrip ▸ pyStrip_ne_empty_of_nonspace u hc⟩
    · rw [h] at ht
      obtain ⟨u, hu, hne, hstrip⟩ := geminiAttempt_ok _ _ hg
      cases ht
      exact ⟨3, by simp, u, hu, hne, hstrip,
        fun hc => hstrip ▸ pyStrip_ne_empty_of_nonspace u hc⟩
    · rw [h] at ht
      cases ht

/-- C6, witness: a provider failing on all three attempts exhausts the retry
policy with the 1 s and 2 s backoffs and raises. -/
theorem retryGenerate_policy_witness :
    ∃ e, retryGenerate (fun _ => Except.error (GenErr.exc "boom")) =
      (Except.error e, [1, 2]) :=
  (retryGenerate_policy (fun _ => Except.error (GenErr.exc "boom"))).1
    ⟨rfl, rfl, rfl⟩

/-- Helper: the validated rubric list built by the `_validate_evaluation` loop
is the weight table mapped to clamped scores and defaulted justifications. -/
theorem foldl_validateRubricStep_fst (evaluation : RawEval) :
    ∀ (ws : List (String × ℚ)) (acc : List (String × Rubric) × ℚ),
      (ws.foldl (validateRubricStep evaluation) acc).1 =
        acc.1 ++ ws.map (fun nw =>
          (nw.1,
           ⟨max 0 (min 10 ((lookupRubric evaluation.rubricScores nw.1).score?.getD 5)),
            (lookupRubric evaluation.rubricScores nw.1).justification?.getD
              ("Standard " ++ underscoreToSpace nw.1 ++ " evaluation")⟩))
  | [], acc => by simp
  | nw :: ws, acc => by
    rw [List.foldl_cons, foldl_validateRubricStep_fst evaluation ws]
    simp [validateRubricStep]

/-- C10: every rubric score of a validated Evaluation lies in [0, 10]; a
model-provided score is clamped to the nearest bound and a missing score
defaults to 5, so out-of-range model output can never produce a rubric score
outside [0, 10]. -/
theorem validateEvaluation_scores_clamped (evaluation : RawEval) (agentId : ℤ) :
    ∀ p ∈ (validateEvaluation evaluation agentId).rubricScores,
      (0 ≤ p.2.score ∧ p.2.score ≤ 10) ∧
      p.2.score =
        max 0 (min 10 ((lookupRubric evaluation.rubricScores p.1).score?.getD 5)) := by
  intro p hp
  have hr : (validateEvaluation evaluation agentId).rubricScores =
      rubricWeights.map (fun nw =>
        (nw.1,
         ⟨max 0 (min 10 ((lookupRubric evaluation.rubricScores nw.1).score?.getD 5)),
          (lookupRubric evaluation.rubricScores nw.1).justification?.getD
            ("Standard " ++ underscoreToSpace nw.1 ++ " evaluation")⟩)) := by
    simp [validateEvaluation, foldl_validateRubricStep_fst]
  rw [hr] at hp
  obtain ⟨nw, hnw, rfl⟩ := List.mem_map.mp hp
  refine ⟨⟨le_max_left 0 _, ?_⟩, rfl⟩
  exact max_le (by norm_num) (min_le_left 10 _)

/-- C10, witness: a concrete evaluation whose `logical_soundness` score 42 is
clamped to 10 and whose remaining scores default to 5. -/
theorem validateEvaluation_scores_clamped_witness :
    (("logical_soundness", (⟨10, "srcjust"⟩ : Rubric)) ∈
      (validateEvaluation
        ⟨none, [("logical_soundness", ⟨some 42, some "srcjust"⟩)],
         none, none, none, none⟩ 0).rubricScores) ∧
    ((0 ≤ (10 : ℚ) ∧ (10 : ℚ) ≤ 10) ∧
      (10 : ℚ) =
        max 0 (min 10 ((lookupRubric [("logical_soundness", ⟨some 42, some "srcjust"⟩)]
          "logical_soundness").score?.getD 5))) := by
  have hm : ("logical_soundness", (⟨10, "srcjust"⟩ : Rubric)) ∈
      (validateEvaluation
        ⟨none, [("logical_soundness", ⟨some 42, some "srcjust"⟩)],
         none, none, none, none⟩ 0).rubricScores := by
    simp only [validateEvaluation, foldl_validateRubricStep_fst, rubricWeights,
      lookupRubric, List.map_cons, List.map_nil, List.nil_append]
    norm_num [List.lookup]
  exact ⟨hm,
    validateEvaluation_scores_clamped
      ⟨none, [("logical_soundness", ⟨some 42, some "srcjust"⟩)],
       none, none, none, none⟩ 0 _ hm⟩

/-- Helper: `filterMap` with a function that succeeds on every element of the
list keeps the length. -/
theorem length_filterMap_of_isSome {α β : Type} (f : α → Option β) :
    ∀ l : List α, (∀ x ∈ l, (f x).isSome = true) →
      (l.filterMap f).length = l.length
  | [], _ => rfl
  | x :: xs, h => by
    obtain ⟨y, hy⟩ := Option.isSome_iff_exists.mp (h x (List.mem_cons_self x xs))
    rw [List.filterMap_cons, hy]
    simp only [List.length_cons]
    rw [length_filterMap_of_isSome f xs (fun a ha => h a (List.mem_cons_of_mem x ha))]

/-- Helper: association-list lookup succeeds exactly on the stored keys. -/
theorem lookup_isSome_of_mem_keys {β : Type} (l : List (ℤ × β)) (k : ℤ)
    (h : k ∈ l.map Prod.fst) : (l.lookup k).isSome = true := by
  obtain ⟨p, hp, hk⟩ := List.mem_map.mp h
  rw [List.lookup_isSome_iff]
  exact ⟨p, hp, by rw [hk] ; exact beq_self_eq_true k⟩

/-- Helper: the keys of `candidate_map` are the candidate ids. -/
theorem candidateAssoc_keys (candidates : List Candidate) :
    (candidateAssoc candidates).map Prod.fst = candidateIds candidates := by
  simp [candidateAssoc, candidateIds, List.map_map, Function.comp]

/-- C9: when the critique's ranking covers the valid candidates (one entry per
candidate, every entry's `agent_id` among the candidate ids), the Refine
stage selects exactly `min top_k M` candidates, `M` being the number of valid
candidates — the requested `top_k` is clamped to the candidates available. -/
theorem getTopCandidates_count (critique : CritiqueOut)
    (candidates : List Candidate) (topK : ℕ)
    (hlen : critique.ranking.length = candidates.length)
    (hcov : ∀ r ∈ critique.ranking, r.agentId ∈ candidateIds candidates) :
    (getTopCandidates critique candidates topK).length =
      min topK candidates.length := by
  unfold getTopCandidates
  refine Eq.trans (length_filterMap_of_isSome _ _ ?_) ?_
  · intro r hr
    have hmem : r.agentId ∈ candidateIds candidates :=
      hcov r (List.mem_of_mem_take hr)
    have hsome : (dictLookup (candidateAssoc candidates) r.agentId).isSome = true := by
      unfold dictLookup
      apply lookup_isSome_of_mem_keys
      rw [List.map_reverse, List.mem_reverse, candidateAssoc_keys]
      exact hmem
    obtain ⟨c, hc⟩ := Option.isSome_iff_exists.mp hsome
    rw [hc]
    rfl
  · rw [List.length_take, hlen]

/-- C9, witness: requesting `top_k = 10` with 3 valid candidates selects
exactly 3 (= min 10 3). -/
theorem getTopCandidates_count_witness :
    (getTopCandidates
      ⟨[], [⟨0, 9, 1⟩, ⟨1, 8, 2⟩, ⟨2, 7, 3⟩], "", []⟩
      [⟨some 0, "a"⟩, ⟨some 1, "b"⟩, ⟨some 2, "c"⟩] 10).length = min 10 3 :=
  getTopCandidates_count
    ⟨[], [⟨0, 9, 1⟩, ⟨1, 8, 2⟩, ⟨2, 7, 3⟩], "", []⟩
    [⟨some 0, "a"⟩, ⟨some 1, "b"⟩, ⟨some 2, "c"⟩] 10 rfl (by decide)

/-- Helper: an element of `l.zip (l.map f)` pairs each element with its own
image. -/
theorem zip_map_self {α β : Type} (f : α → β) :
    ∀ (l : List α), ∀ p ∈ l.zip (l.map f), p.2 = f p.1
  | [], p, hp => by simp at hp
  | x :: xs, p, hp => by
    rw [List.map_cons, List.zip_cons_cons] at hp
    rcases List.mem_cons.mp hp with h | h
    · rw [h]
    · exact zip_map_self f xs p h

/-- C2: for every non-empty candidate list, the validated critique has exactly
one Evaluation per candidate: as many evaluations as candidates, the i-th
evaluation carrying the i-th candidate id (a bijection matched by `agent_id`
whenever the ids are distinct), the evaluation being the validation of the
model's evaluation for that id when one exists and the synthesized default
otherwise. -/
theorem validateAndEnhanceCritique_oneEvalPerCandidate (critique : RawCritique)
    (candidates : List Candidate) (h : candidates ≠ []) :
    ((validateAndEnhanceCritique critique candidates).evaluations.length =
      candidates.length) ∧
    ((validateAndEnhanceCritique critique candidates).evaluations.map
        (fun e => e.agentId) = candidateIds candidates) ∧
    (∀ p ∈ (candidateIds candidates).zip
        (validateAndEnhanceCritique critique candidates).evaluations,
      (findRawEval critique.evaluations p.1 = none →
        p.2 = createDefaultEvaluation p.1) ∧
      (∀ raw, findRawEval critique.evaluations p.1 = some raw →
        p.2 = validateEvaluation raw p.1)) := by
  have hev : (validateAndEnhanceCritique critique candidates).evaluations =
      (candidateIds candidates).map (fun candidateId =>
        match findRawEval critique.evaluations candidateId with
        | some existingEval => validateEvaluation existingEval candidateId
        | none => createDefaultEvaluation candidateId) := rfl
  refine ⟨?_, ?_, ?_⟩
  · rw [hev, List.length_map, candidateIds, List.length_map, List.enum_length]
  · rw [hev, List.map_map]
    conv_rhs => rw [← List.map_id (candidateIds candidates)]
    apply List.map_congr_left
    intro a _
    simp only [Function.comp_apply, id_eq]
    cases hfind : findRawEval critique.evaluations a <;> rfl
  · intro p hp
    rw [hev] at hp
    have hp2 := zip_map_self _ _ p hp
    constructor
    · intro hnone
      rw [hp2, hnone]
    · intro raw hraw
      rw [hp2, hraw]

/-- C2, witness: two candidates, the model covering only agent 7; the first
evaluation is synthesized, lengths and ids match. -/
theorem validateAndEnhanceCritique_witness :
    ((validateAndEnhanceCritique ⟨[], none, none⟩
        [⟨some 0, "a"⟩, ⟨some 7, "b"⟩]).evaluations.length = 2) ∧
    ((validateAndEnhanceCritique ⟨[], none, none⟩
        [⟨some 0, "a"⟩, ⟨some 7, "b"⟩]).evaluations.map
      (fun e => e.agentId) = [0, 7]) :=
  ⟨(validateAndEnhanceCritique_oneEvalPerCandidate ⟨[], none, none⟩
      [⟨some 0, "a"⟩, ⟨some 7, "b"⟩] (by simp)).1,
   (validateAndEnhanceCritique_oneEvalPerCandidate ⟨[], none, none⟩
      [⟨some 0, "a"⟩, ⟨some 7, "b"⟩] (by simp)).2.1⟩

/-- Helper: a filtered list is pairwise related when the predicate forces the
relation between any two kept elements. -/
theorem pairwise_filter_of_equiv {α : Type} (le : α → α → Bool) (p : α → Bool)
    (hp : ∀ a b, p a = true → p b = true → le a b = true) :
    ∀ l : List α, (l.filter p).Pairwise (fun a b => le a b = true)
  | [] => by simp
  | x :: xs => by
    rw [List.filter_cons]
    by_cases hx : p x = true
    · rw [if_pos hx]
      exact List.Pairwise.cons
        (fun y hy => hp x y hx (List.of_mem_filter hy))
        (pairwise_filter_of_equiv le p hp xs)
    · rw [if_neg hx]
      exact pairwise_filter_of_equiv le p hp xs

/-- Helper: stability of `mergeSort` as a filter equation — the sublist of
elements the comparison cannot distinguish keeps its input order. -/
theorem filter_mergeSort_eq {α : Type} (le : α → α → Bool) (p : α → Bool)
    (l : List α)
    (htrans : ∀ a b c : α, le a b = true → le b c = true → le a c = true)
    (htotal : ∀ a b : α, (le a b || le b a) = true)
    (hp : ∀ a b, p a = true → p b = true → le a b = true) :
    (l.mergeSort le).filter p = l.filter p := by
  have hpair := pairwise_filter_of_equiv le p hp l
  have hsub : List.Sublist (l.filter p) (l.mergeSort le) :=
    List.sublist_mergeSort htrans htotal hpair (List.filter_sublist l)
  have hsub2 : List.Sublist ((l.filter p).filter p) ((l.mergeSort le).filter p) :=
    hsub.filter p
  have hsub3 : List.Sublist (l.filter p) ((l.mergeSort le).filter p) := by
    simpa [List.filter_filter] using hsub2
  have hperm : List.Perm ((l.mergeSort le).filter p) (l.filter p) :=
    (List.mergeSort_perm l le).filter p
  exact (hsub3.eq_of_length hperm.length_eq.symm).symm

/-- C3: the ranking is a stable sort of the evaluations by
`weighted_total_score` descending: ranks are assigned 1, 2, ... in sorted
order, the scores are non-increasing along the ranking, the ranking's
(agent_id, score) pairs are a permutation of the evaluations', and for every
score value the evaluations carrying it appear in the ranking in their input
order (the filter characterization of stability). -/
theorem createRanking_stable (evaluations : List Eval) :
    ((createRanking evaluations).map (fun r => r.rank) =
      (List.range evaluations.length).map (fun i => i + 1)) ∧
    List.Pairwise (fun a b : ℚ => b ≤ a)
      ((createRanking evaluations).map (fun r => r.weightedTotalScore)) ∧
    ((createRanking evaluations).map
        (fun r => (r.agentId, r.weightedTotalScore))).Perm
      (evaluations.map (fun e => (e.agentId, e.weightedTotalScore))) ∧
    ∀ s : ℚ,
      ((createRanking evaluations).map
          (fun r => (r.agentId, r.weightedTotalScore))).filter
        (fun q => q.2 == s) =
      (evaluations.map (fun e => (e.agentId, e.weightedTotalScore))).filter
        (fun q => q.2 == s) := by
  have htrans : ∀ a b c : Eval,
      decide (b.weightedTotalScore ≤ a.weightedTotalScore) = true →
      decide (c.weightedTotalScore ≤ b.weightedTotalScore) = true →
      decide (c.weightedTotalScore ≤ a.weightedTotalScore) = true := by
    intro a b c hab hbc
    rw [decide_eq_true_eq] at *
    exact le_trans hbc hab
  have htotal : ∀ a b : Eval,
      (decide (b.weightedTotalScore ≤ a.weightedTotalScore) ||
       decide (a.weightedTotalScore ≤ b.weightedTotalScore)) = true := by
    intro a b
    rcases le_total b.weightedTotalScore a.weightedTotalScore with h | h
    · simp [h]
    · simp [h]
  have hperm := List.mergeSort_perm evaluations
    (fun a b => decide (b.weightedTotalScore ≤ a.weightedTotalScore))
  have hsorted := List.sorted_mergeSort htrans htotal evaluations
  refine ⟨?_, ?_, ?_, ?_⟩
  · simp only [createRanking, List.map_map]
    rw [show ((fun r : RankEntry => r.rank) ∘ fun p : ℕ × Eval =>
        RankEntry.mk p.2.agentId p.2.weightedTotalScore (p.1 + 1)) =
        (fun i => i + 1) ∘ Prod.fst from rfl]
    rw [← List.map_map, List.enum_map_fst, List.length_mergeSort]
  · simp only [createRanking, List.map_map]
    rw [show ((fun r : RankEntry => r.weightedTotalScore) ∘ fun p : ℕ × Eval =>
        RankEntry.mk p.2.agentId p.2.weightedTotalScore (p.1 + 1)) =
        (fun e : Eval => e.weightedTotalScore) ∘ Prod.snd from rfl]
    rw [← List.map_map, List.enum_map_snd, List.pairwise_map]
    exact hsorted.imp (fun hab => of_decide_eq_true hab)
  · simp only [createRanking, List.map_map]
    rw [show ((fun r : RankEntry => (r.agentId, r.weightedTotalScore)) ∘
        fun p : ℕ × Eval =>
        RankEntry.mk p.2.agentId p.2.weightedTotalScore (p.1 + 1)) =
        (fun e : Eval => (e.agentId, e.weightedTotalScore)) ∘ Prod.snd from rfl]
    rw [← List.map_map, List.enum_map_snd]
    exact hperm.map _
  · intro s
    simp only [createRanking, List.map_map]
    rw [show ((fun r : RankEntry => (r.agentId, r.weightedTotalScore)) ∘
        fun p : ℕ × Eval =>
        RankEntry.mk p.2.agentId p.2.weightedTotalScore (p.1 + 1)) =
        (fun e : Eval => (e.agentId, e.weightedTotalScore)) ∘ Prod.snd from rfl]
    rw [← List.map_map, List.enum_map_snd, List.filter_map, List.filter_map]
    congr 1
    apply filter_mergeSort_eq _ _ _ htrans htotal
    intro a b ha hb
    have ha' : a.weightedTotalScore = s := by
      simpa [Function.comp] using ha
    have hb' : b.weightedTotalScore = s := by
      simpa [Function.comp] using hb
    rw [decide_eq_true_eq, ha', hb']

/-- Helper: the fan-out success list is empty iff every seed's think call
failed. -/
theorem validThink_eq_nil_iff {E Cand : Type} (thinkFn : ℕ → Except E Cand)
    (nPaths : ℕ) :
    validThink thinkFn nPaths = [] ↔
      ∀ i < nPaths, exceptIsOk (thinkFn i) = false := by
  unfold validThink thinkOutcomes
  rw [List.filterMap_eq_nil_iff]
  constructor
  · intro h i hi
    have hmem := h (thinkFn i) (List.mem_map_of_mem thinkFn (List.mem_range.mpr hi))
    cases hth : thinkFn i with
    | ok a => rw [hth] at hmem; simp [exceptToOption] at hmem
    | error e => simp [exceptIsOk]
  · intro h a ha
    obtain ⟨i, hi, rfl⟩ := List.mem_map.mp ha
    have hb := h i (List.mem_range.mp hi)
    cases hth : thinkFn i with
    | ok b => rw [hth] at hb; simp [exceptIsOk] at hb
    | error e => simp [exceptToOption]

/-- Helper: successes and failures of the fan-out partition the outcomes. -/
theorem length_filterMap_add_length_filter {ε α : Type} :
    ∀ l : List (Except ε α),
      (l.filterMap exceptToOption).length +
        (l.filter (fun o => !exceptIsOk o)).length = l.length
  | [] => rfl
  | Except.ok a :: l => by
    have ih := length_filterMap_add_length_filter l
    show (l.filterMap exceptToOption).length + 1 +
      (l.filter (fun o => !exceptIsOk o)).length = l.length + 1
    omega
  | Except.error e :: l => by
    have ih := length_filterMap_add_length_filter l
    show (l.filterMap exceptToOption).length +
      ((l.filter (fun o => !exceptIsOk o)).length + 1) = l.length + 1
    omega

/-- Helper: the think-stage counts add up to the number of paths. -/
theorem validThink_add_failed {E Cand : Type} (thinkFn : ℕ → Except E Cand)
    (nPaths : ℕ) :
    (validThink thinkFn nPaths).length + failedThinkCount thinkFn nPaths =
      nPaths := by
  unfold validThink failedThinkCount
  rw [length_filterMap_add_length_filter]
  unfold thinkOutcomes
  rw [List.length_map, List.length_range]

/-- Helper: the research stage only ever records a research call. -/
theorem researchStage_trace_mem {E R Cand CritR : Type} (plan : PlanOut)
    (researchFn : List String → Except E R) :
    ∀ c ∈ (researchStage plan researchFn : Option R × List (StageCall Cand CritR)).2,
      c = StageCall.research := by
  unfold researchStage
  split
  · split <;> simp
  · simp

/-- Helper: pipeline run when every think path failed: the abort with
`AllPathsFailed` happens right after the fan-out. -/
theorem executePipeline_allFail {E Cand CritR R : Type}
    (planResult : PlanResult) (researchFn : List String → Except E R)
    (thinkFn : ℕ → Except E Cand) (critiqueFn : List Cand → Except E CritR)
    (refineFn : CritR → List Cand → ℕ → Except E RefineOut)
    (metaFn : String → Except E MetaOut) (query : String) (nPaths topK : ℕ)
    (h : validThink thinkFn nPaths = []) :
    executePipeline (Except.ok planResult) researchFn thinkFn critiqueFn
        refineFn metaFn query nPaths topK =
      (Except.error PipeError.allPathsFailed,
       [StageCall.plan] ++
         (researchStage (planResult.plan?.getD ⟨false, []⟩) researchFn).2 ++
         (List.range nPaths).map StageCall.think) := by
  simp [executePipeline, h]

/-- Helper: pipeline run when the critique stage raises: a fatal agent
error after the critique call. -/
theorem executePipeline_critiqueError {E Cand CritR R : Type}
    (planResult : PlanResult) (researchFn : List String → Except E R)
    (thinkFn : ℕ → Except E Cand) (critiqueFn : List Cand → Except E CritR)
    (refineFn : CritR → List Cand → ℕ → Except E RefineOut)
    (metaFn : String → Except E MetaOut) (query : String) (nPaths topK : ℕ)
    (x : Cand) (xs : List Cand) (e : E)
    (hv : validThink thinkFn nPaths = x :: xs)
    (hc : critiqueFn (x :: xs) = Except.error e) :
    executePipeline (Except.ok planResult) researchFn thinkFn critiqueFn
        refineFn metaFn query nPaths topK =
      (Except.error (PipeError.agent e),
       [StageCall.plan] ++
         (researchStage (planResult.plan?.getD ⟨false, []⟩) researchFn).2 ++
         (List.range nPaths).map StageCall.think ++
         [StageCall.critique (x :: xs)]) := by
  simp [executePipeline, hv, hc]

/-- Helper: pipeline run when the refine stage raises: a fatal agent error
after the refine call. -/
theorem executePipeline_refineError {E Cand CritR R : Type}
    (planResult : PlanResult) (researchFn : List String → Except E R)
    (thinkFn : ℕ → Except E Cand) (critiqueFn : List Cand → Except E CritR)
    (refineFn : CritR → List Cand → ℕ → Except E RefineOut)
    (metaFn : String → Except E MetaOut) (query : String) (nPaths topK : ℕ)
    (x : Cand) (xs : List Cand) (critiqueResult : CritR) (e : E)
    (hv : validThink thinkFn nPaths = x :: xs)
    (hc : critiqueFn (x :: xs) = Except.ok critiqueResult)
    (hr : refineFn critiqueResult (x :: xs) topK = Except.error e) :
    executePipeline (Except.ok planResult) researchFn thinkFn critiqueFn
        refineFn metaFn query nPaths topK =
      (Except.error (PipeError.agent e),
       [StageCall.plan] ++
         (researchStage (planResult.plan?.getD ⟨false, []⟩) researchFn).2 ++
         (List.range nPaths).map StageCall.think ++
         [StageCall.critique (x :: xs),
          StageCall.refine critiqueResult (x :: xs) topK]) := by
  simp [executePipeline, hv, hc, hr]

/-- Helper: pipeline run on the fully successful path with the meta-refiner
succeeding. -/
theorem executePipeline_metaOk {E Cand CritR R : Type}
    (planResult : PlanResult) (researchFn : List String → Except E R)
    (thinkFn : ℕ → Except E Cand) (critiqueFn : List Cand → Except E CritR)
    (refineFn : CritR → List Cand → ℕ → Except E RefineOut)
    (metaFn : String → Except E MetaOut) (query : String) (nPaths topK : ℕ)
    (x : Cand) (xs : List Cand) (critiqueResult : CritR)
    (refinementResult : RefineOut) (metaResult : MetaOut)
    (hv : validThink thinkFn nPaths = x :: xs)
    (hc : critiqueFn (x :: xs) = Except.ok critiqueResult)
    (hr : refineFn critiqueResult (x :: xs) topK = Except.ok refinementResult)
    (hm : metaFn (refinementResult.finalAnswer?.getD "") = Except.ok metaResult) :
    executePipeline (Except.ok planResult) researchFn thinkFn critiqueFn
        refineFn metaFn query nPaths topK =
      (Except.ok (buildPipelineResult query nPaths topK planResult
          (researchStage (planResult.plan?.getD ⟨false, []⟩) researchFn :
            Option R × List (StageCall Cand CritR)).1
          (x :: xs) (failedThinkCount thinkFn nPaths) critiqueResult
          refinementResult (some metaResult)
          (metaResult.metaRefinedAnswer?.getD
            (refinementResult.finalAnswer?.getD ""))),
       [StageCall.plan] ++
         (researchStage (planResult.plan?.getD ⟨false, []⟩) researchFn).2 ++
         (List.range nPaths).map StageCall.think ++
         [StageCall.critique (x :: xs),
          StageCall.refine critiqueResult (x :: xs) topK,
          StageCall.metaRefine (refinementResult.finalAnswer?.getD "")]) := by
  simp [executePipeline, hv, hc, hr, hm]

/-- Helper: pipeline run on the fully successful path with the meta-refiner
raising: non-fatal, the refine answer is kept and meta-refinement is recorded
as not applied. -/
theorem executePipeline_metaError {E Cand CritR R : Type}
    (planResult : PlanResult) (researchFn : List String → Except E R)
    (thinkFn : ℕ → Except E Cand) (critiqueFn : List Cand → Except E CritR)
    (refineFn : CritR → List Cand → ℕ → Except E RefineOut)
    (metaFn : String → Except E MetaOut) (query : String) (nPaths topK : ℕ)
    (x : Cand) (xs : List Cand) (critiqueResult : CritR)
    (refinementResult : RefineOut) (em : E)
    (hv : validThink thinkFn nPaths = x :: xs)
    (hc : critiqueFn (x :: xs) = Except.ok critiqueResult)
    (hr : refineFn critiqueResult (x :: xs) topK = Except.ok refinementResult)
    (hm : metaFn (refinementResult.finalAnswer?.getD "") = Except.error em) :
    executePipeline (Except.ok planResult) researchFn thinkFn critiqueFn
        refineFn metaFn query nPaths topK =
      (Except.ok (buildPipelineResult query nPaths topK planResult
          (researchStage (planResult.plan?.getD ⟨false, []⟩) researchFn :
            Option R × List (StageCall Cand CritR)).1
          (x :: xs) (failedThinkCount thinkFn nPaths) critiqueResult
          refinementResult none
          (refinementResult.finalAnswer?.getD "Unable to generate answer")),
       [StageCall.plan] ++
         (researchStage (planResult.plan?.getD ⟨false, []⟩) researchFn).2 ++
         (List.range nPaths).map StageCall.think ++
         [StageCall.critique (x :: xs),
          StageCall.refine critiqueResult (x :: xs) topK,
          StageCall.metaRefine (refinementResult.finalAnswer?.getD "")]) := by
  simp [executePipeline, hv, hc, hr, hm]

/-- C7: in the Think fan-out the pipeline (with a successful plan stage)
raises `AllPathsFailed` iff all N instances fail; with at least one success
the critique stage is called with exactly the successful subset; a completed
run's metadata counts `candidates_generated` = number of successes and
`candidates_failed` = number of failures (summing to N); and in the all-fail
case no critique, refine or meta-refine call is performed. -/
theorem executePipeline_thinkFanout {E Cand CritR R : Type}
    (planResult : PlanResult) (researchFn : List String → Except E R)
    (thinkFn : ℕ → Except E Cand) (critiqueFn : List Cand → Except E CritR)
    (refineFn : CritR → List Cand → ℕ → Except E RefineOut)
    (metaFn : String → Except E MetaOut) (query : String) (nPaths topK : ℕ) :
    ((executePipeline (Except.ok planResult) researchFn thinkFn critiqueFn
        refineFn metaFn query nPaths topK).1 =
        Except.error PipeError.allPathsFailed ↔
      ∀ i < nPaths, exceptIsOk (thinkFn i) = false) ∧
    (validThink thinkFn nPaths ≠ [] →
      StageCall.critique (validThink thinkFn nPaths) ∈
        (executePipeline (Except.ok planResult) researchFn thinkFn critiqueFn
          refineFn metaFn query nPaths topK).2) ∧
    (∀ res, (executePipeline (Except.ok planResult) researchFn thinkFn
        critiqueFn refineFn metaFn query nPaths topK).1 = Except.ok res →
      res.candidatesGenerated = (validThink thinkFn nPaths).length ∧
      res.candidatesFailed = failedThinkCount thinkFn nPaths ∧
      res.candidatesGenerated + res.candidatesFailed = nPaths) ∧
    ((∀ i < nPaths, exceptIsOk (thinkFn i) = false) →
      ∀ c ∈ (executePipeline (Except.ok planResult) researchFn thinkFn
          critiqueFn refineFn metaFn query nPaths topK).2,
        StageCall.isPreCritique c = true) := by
  refine ⟨?_, ?_, ?_, ?_⟩
  · rw [← validThink_eq_nil_iff thinkFn nPaths]
    constructor
    · intro h
      cases hv : validThink thinkFn nPaths with
      | nil => rfl
      | cons x xs =>
        exfalso
        cases hc : critiqueFn (x :: xs) with
        | error e =>
          rw [executePipeline_critiqueError planResult researchFn thinkFn
            critiqueFn refineFn metaFn query nPaths topK x xs e hv hc] at h
          simp at h
        | ok critiqueResult =>
          cases hr : refineFn critiqueResult (x :: xs) topK with
          | error e =>
            rw [executePipeline_refineError planResult researchFn thinkFn
              critiqueFn refineFn metaFn query nPaths topK x xs critiqueResult
              e hv hc hr] at h
            simp at h
          | ok refinementResult =>
            cases hm : metaFn (refinementResult.finalAnswer?.getD "") with
            | ok metaResult =>
              rw [executePipeline_metaOk planResult researchFn thinkFn
                critiqueFn refineFn metaFn query nPaths topK x xs
                critiqueResult refinementResult metaResult hv hc hr hm] at h
              simp at h
            | error em =>
              rw [executePipeline_metaError planResult researchFn thinkFn
                critiqueFn refineFn metaFn query nPaths topK x xs
                critiqueResult refinementResult em hv hc hr hm] at h
              simp at h
    · intro h
      rw [executePipeline_allFail planResult researchFn thinkFn critiqueFn
        refineFn metaFn query nPaths topK h]
  · intro hne
    cases hv : validThink thinkFn nPaths with
    | nil => exact absurd hv hne
    | cons x xs =>
      cases hc : critiqueFn (x :: xs) with
      | error e =>
        rw [executePipeline_critiqueError planResult researchFn thinkFn
          critiqueFn refineFn metaFn query nPaths topK x xs e hv hc]
        simp
      | ok critiqueResult =>
        cases hr : refineFn critiqueResult (x :: xs) topK with
        | error e =>
          rw [executePipeline_refineError planResult researchFn thinkFn
            critiqueFn refineFn metaFn query nPaths topK x xs critiqueResult
            e hv hc hr]
          simp
        | ok refinementResult =>
          cases hm : metaFn (refinementResult.finalAnswer?.getD "") with
          | ok metaResult =>
            rw [executePipeline_metaOk planResult researchFn thinkFn
              critiqueFn refineFn metaFn query nPaths topK x xs
              critiqueResult refinementResult metaResult hv hc hr hm]
            simp
          | error em =>
            rw [executePipeline_metaError planResult researchFn thinkFn
              critiqueFn refineFn metaFn query nPaths topK x xs
              critiqueResult refinementResult em hv hc hr hm]
            simp
  · intro res hres
    cases hv : validThink thinkFn nPaths with
    | nil =>
      rw [executePipeline_allFail planResult researchFn thinkFn critiqueFn
        refineFn metaFn query nPaths topK hv] at hres
      simp at hres
    | cons x xs =>
      have hsum := validThink_add_failed thinkFn nPaths
      cases hc : critiqueFn (x :: xs) with
      | error e =>
        rw [executePipeline_critiqueError planResult researchFn thinkFn
          critiqueFn refineFn metaFn query nPaths topK x xs e hv hc] at hres
        simp at hres
      | ok critiqueResult =>
        cases hr : refineFn critiqueResult (x :: xs) topK with
        | error e =>
          rw [executePipeline_refineError planResult researchFn thinkFn
            critiqueFn refineFn metaFn query nPaths topK x xs critiqueResult
            e hv hc hr] at hres
          simp at hres
        | ok refinementResult =>
          cases hm : metaFn (refinementResult.finalAnswer?.getD "") with
          | ok metaResult =>
            rw [executePipeline_metaOk planResult researchFn thinkFn
              critiqueFn refineFn metaFn query nPaths topK x xs
              critiqueResult refinementResult metaResult hv hc hr hm] at hres
            simp only [Except.ok.injEq] at hres
            rw [← hres]
            refine ⟨rfl, rfl, ?_⟩
            show (x :: xs).length + failedThinkCount thinkFn nPaths = nPaths
            rw [hv] at hsum
            exact hsum
          | error em =>
            rw [executePipeline_metaError planResult researchFn thinkFn
              critiqueFn refineFn metaFn query nPaths topK x xs
              critiqueResult refinementResult em hv hc hr hm] at hres
            simp only [Except.ok.injEq] at hres
            rw [← hres]
            refine ⟨rfl, rfl, ?_⟩
            show (x :: xs).length + failedThinkCount thinkFn nPaths = nPaths
            rw [hv] at hsum
            exact hsum
  · intro hall c hcmem
    have hv : validThink thinkFn nPaths = [] :=
      (validThink_eq_nil_iff thinkFn nPaths).mpr hall
    rw [executePipeline_allFail planResult researchFn thinkFn critiqueFn
      refineFn metaFn query nPaths topK hv] at hcmem
    simp only [List.mem_append, List.mem_map, List.mem_singleton,
      List.mem_cons, List.not_mem_nil, or_false] at hcmem
    rcases hcmem with (hc1 | hc2) | hc3
    · rw [hc1]
      rfl
    · rw [researchStage_trace_mem _ researchFn c hc2]
      rfl
    · obtain ⟨i, _, hi⟩ := hc3
      rw [← hi]
      rfl

/-- C7, witness: three think instances all raising makes the pipeline abort
with `AllPathsFailed`. -/
theorem executePipeline_thinkFanout_witness :
    (executePipeline (Except.ok (⟨none⟩ : PlanResult))
      (fun _ => (Except.ok () : Except Unit Unit))
      (fun _ => (Except.error () : Except Unit ℕ))
      (fun _ => (Except.ok () : Except Unit Unit))
      (fun _ _ _ => Except.ok (⟨some "a", none, none⟩ : RefineOut))
      (fun _ => (Except.ok (⟨none, none, none, none⟩ : MetaOut) :
        Except Unit MetaOut)) "q" 3 2).1 =
      Except.error PipeError.allPathsFailed :=
  (executePipeline_thinkFanout (⟨none⟩ : PlanResult)
    (fun _ => (Except.ok () : Except Unit Unit))
    (fun _ => (Except.error () : Except Unit ℕ))
    (fun _ => (Except.ok () : Except Unit Unit))
    (fun _ _ _ => Except.ok (⟨some "a", none, none⟩ : RefineOut))
    (fun _ => (Except.ok (⟨none, none, none, none⟩ : MetaOut) :
      Except Unit MetaOut)) "q" 3 2).1.mpr (by decide)

/-- C8: when the meta-refine stage raises, the pipeline does not abort: it
returns a result whose answer is the Refine stage's `final_answer` and whose
metadata records `meta_refinement_applied = false`. -/
theorem executePipeline_metaFailureFallback {E Cand CritR R : Type}
    (planResult : PlanResult) (researchFn : List String → Except E R)
    (thinkFn : ℕ → Except E Cand) (critiqueFn : List Cand → Except E CritR)
    (refineFn : CritR → List Cand → ℕ → Except E RefineOut)
    (metaFn : String → Except E MetaOut) (query : String) (nPaths topK : ℕ)
    (x : Cand) (xs : List Cand) (critiqueResult : CritR)
    (refinementResult : RefineOut) (answer : String) (em : E)
    (hv : validThink thinkFn nPaths = x :: xs)
    (hc : critiqueFn (x :: xs) = Except.ok critiqueResult)
    (hr : refineFn critiqueResult (x :: xs) topK = Except.ok refinementResult)
    (hfa : refinementResult.finalAnswer? = some answer)
    (hm : metaFn answer = Except.error em) :
    ∃ res, (executePipeline (Except.ok planResult) researchFn thinkFn
        critiqueFn refineFn metaFn query nPaths topK).1 = Except.ok res ∧
      res.answer = answer ∧ res.metaRefinementApplied = false := by
  have hm' : metaFn (refinementResult.finalAnswer?.getD "") = Except.error em := by
    rw [hfa]
    exact hm
  rw [executePipeline_metaError planResult researchFn thinkFn critiqueFn
    refineFn metaFn query nPaths topK x xs critiqueResult refinementResult em
    hv hc hr hm']
  refine ⟨_, rfl, ?_, rfl⟩
  show refinementResult.finalAnswer?.getD "Unable to generate answer" = answer
  rw [hfa]
  rfl

/-- C8, witness: a single successful think path, a refine answer "ans", and a
raising meta-refiner: the result keeps "ans" and records no
meta-refinement. -/
theorem executePipeline_metaFailureFallback_witness :
    ∃ res, (executePipeline (Except.ok (⟨none⟩ : PlanResult))
        (fun _ => (Except.ok () : Except Unit Unit))
        (fun i => (Except.ok i : Except Unit ℕ))
        (fun _ => (Except.ok () : Except Unit Unit))
        (fun _ _ _ => Except.ok (⟨some "ans", none, none⟩ : RefineOut))
        (fun _ => (Except.error () : Except Unit MetaOut)) "q" 1 2).1 =
        Except.ok res ∧
      res.answer = "ans" ∧ res.metaRefinementApplied = false :=
  executePipeline_metaFailureFallback (⟨none⟩ : PlanResult)
    (fun _ => (Except.ok () : Except Unit Unit))
    (fun i => (Except.ok i : Except Unit ℕ))
    (fun _ => (Except.ok () : Except Unit Unit))
    (fun _ _ _ => Except.ok (⟨some "ans", none, none⟩ : RefineOut))
    (fun _ => (Except.error () : Except Unit MetaOut)) "q" 1 2
    0 [] () ⟨some "ans", none, none⟩ "ans" () rfl rfl rfl rfl rfl

end DeepThink
